import Mathlib

/-!
Verification of the disk-partition analyzer (MBR/GPT) against its design
specification.  The repository consists of `mbr.h`, `gpt.h` and `main.c`;
structures and the `main` control flow are embedded from those files.
Functions that are only declared in the headers (their translation unit is
not part of the sources) are modelled from the specification and are marked
as such in their doc comments.

Bytes are modelled as `Nat` values below 256; 512-byte sectors are `List Nat`
of length 512.  All multi-byte integer fields are little-endian, as on the
x86 targets the program is compiled for (the structs are `__attribute__((packed))`,
so `memcpy` from a sector buffer into a struct reads each field at the packed
offset).
-/

set_option maxRecDepth 16384

namespace DiskAnalysis

/-- Byte `i` of a buffer; out-of-range reads give 0 (the embedding only uses
in-range indices for well-formed sectors). -/
def byteAt (bs : List Nat) (i : Nat) : Nat := bs.getD i 0

/-- Little-endian read of `k` bytes starting at offset `off`. -/
def readLE (bs : List Nat) (off : Nat) : Nat → Nat
  | 0 => 0
  | k + 1 => byteAt bs off + 256 * readLE bs (off + 1) k

/-! ## GUID (gpt.h, struct guid)

`{time_lo: u32, time_mid: u16, time_hi_and_version: u16,
  clock_seq_hi_and_reserved: u8, clock_seq_lo: u8, node: [u8;6]}`, packed,
16 bytes, first three fields little-endian. -/

structure guid where
  time_lo : Nat
  time_mid : Nat
  time_hi_and_version : Nat
  clock_seq_hi_and_reserved : Nat
  clock_seq_lo : Nat
  node : List Nat
deriving DecidableEq, Repr

/-- Structural decode of a `guid` at byte offset `off` of a buffer. -/
def decode_guid (bs : List Nat) (off : Nat) : guid :=
  { time_lo := readLE bs off 4
    time_mid := readLE bs (off + 4) 2
    time_hi_and_version := readLE bs (off + 6) 2
    clock_seq_hi_and_reserved := byteAt bs (off + 8)
    clock_seq_lo := byteAt bs (off + 9)
    node := [byteAt bs (off + 10), byteAt bs (off + 11), byteAt bs (off + 12),
             byteAt bs (off + 13), byteAt bs (off + 14), byteAt bs (off + 15)] }

/-- The all-zero GUID, marking an empty GPT partition entry. -/
def zero_guid : guid := ⟨0, 0, 0, 0, 0, [0, 0, 0, 0, 0, 0]⟩

/-! ## MBR (mbr.h) -/

/-- Struct `mbr_partition_descriptor` (mbr.h:59-67), packed, 16 bytes. -/
structure mbr_partition_descriptor where
  boot_flag : Nat
  chs_start : List Nat
  partition_type : Nat
  chs_end : List Nat
  start_lba : Nat
  size : Nat
deriving DecidableEq, Repr

/-- Structural decode of one MBR partition descriptor at offset `off`. -/
def decode_mbr_partition_descriptor (bs : List Nat) (off : Nat) :
    mbr_partition_descriptor :=
  { boot_flag := byteAt bs off
    chs_start := [byteAt bs (off + 1), byteAt bs (off + 2), byteAt bs (off + 3)]
    partition_type := byteAt bs (off + 4)
    chs_end := [byteAt bs (off + 5), byteAt bs (off + 6), byteAt bs (off + 7)]
    start_lba := readLE bs (off + 8) 4
    size := readLE bs (off + 12) 4 }

/-- Struct `mbr` (mbr.h:86-92): 446 code bytes, 4 descriptors at offset 446, and the
16-bit signature at offset 510. -/
structure mbr where
  bootsector_code : List Nat
  partition_table : List mbr_partition_descriptor
  signature : Nat
deriving DecidableEq, Repr

/-- Overlay of a 512-byte sector with the packed `mbr` struct
(the `memcpy`-style read `main.c` performs at line 90). -/
def decode_mbr (bs : List Nat) : mbr :=
  { bootsector_code := bs.take 446
    partition_table := [decode_mbr_partition_descriptor bs 446,
                        decode_mbr_partition_descriptor bs 462,
                        decode_mbr_partition_descriptor bs 478,
                        decode_mbr_partition_descriptor bs 494]
    signature := readLE bs 510 2 }

/-- Constant `MBR_SIGNATURE` (mbr.h:20). -/
def MBR_SIGNATURE : Nat := 0xAA55

/-- Constant `MBR_TYPE_GPT` (mbr.h:28). -/
def MBR_TYPE_GPT : Nat := 0xEE

/-- Modelled from the spec: the implementation of `is_mbr` (declared at
mbr.h:125, its translation unit is not among the sources) — "read `signature`
at offset 510-511; if ≠ `0xAA55`, return `Invalid` (0). Otherwise inspect the
4 partition descriptors: if any has `partition_type == 0xEE`, return
`ProtectiveGpt` (2); else return `Traditional` (1)." -/
def is_mbr (boot_record : mbr) : Nat :=
  if boot_record.signature ≠ MBR_SIGNATURE then 0
  else if boot_record.partition_table.any
      (fun d => d.partition_type == MBR_TYPE_GPT) then 2
  else 1

/-- C2: for every 512-byte boot sector, classification returns Invalid (0)
when the signature bytes at offsets 510-511 differ (as little-endian u16)
from 0xAA55; otherwise ProtectiveGpt (2) when some of the 4 descriptors has
type byte 0xEE, and Traditional (1) otherwise. -/
theorem is_mbr_classification (bs : List Nat) :
    (readLE bs 510 2 ≠ 0xAA55 → is_mbr (decode_mbr bs) = 0) ∧
    (readLE bs 510 2 = 0xAA55 →
      ((∃ k, k < 4 ∧ byteAt bs (446 + 16 * k + 4) = 0xEE) →
          is_mbr (decode_mbr bs) = 2) ∧
      ((∀ k, k < 4 → byteAt bs (446 + 16 * k + 4) ≠ 0xEE) →
          is_mbr (decode_mbr bs) = 1)) := by
  have hsig : (decode_mbr bs).signature = readLE bs 510 2 := rfl
  refine ⟨fun h => ?_, fun h => ⟨fun ⟨k, hk, he⟩ => ?_, fun h2 => ?_⟩⟩
  · unfold is_mbr
    rw [if_pos]
    rw [hsig, MBR_SIGNATURE]
    exact h
  · have hany : (decode_mbr bs).partition_table.any
        (fun d => d.partition_type == MBR_TYPE_GPT) = true := by
      simp only [decode_mbr, List.any_cons, List.any_nil, Bool.or_eq_true,
        beq_iff_eq, decode_mbr_partition_descriptor, MBR_TYPE_GPT]
      interval_cases k <;> simp_all
    unfold is_mbr
    rw [if_neg, if_pos hany]
    rw [hsig, MBR_SIGNATURE]
    simp [h]
  · have hany : (decode_mbr bs).partition_table.any
        (fun d => d.partition_type == MBR_TYPE_GPT) = false := by
      simp only [decode_mbr, List.any_cons, List.any_nil,
        beq_iff_eq, decode_mbr_partition_descriptor, MBR_TYPE_GPT,
        Bool.or_eq_false_iff, beq_eq_false_iff_ne, ne_eq]
      have h0 := h2 0 (by omega)
      have h1 := h2 1 (by omega)
      have h2' := h2 2 (by omega)
      have h3 := h2 3 (by omega)
      norm_num at h0 h1 h2' h3
      simp [h0, h1, h2', h3]
    unfold is_mbr
    rw [if_neg, if_neg]
    · rw [hany]
      simp
    · rw [hsig, MBR_SIGNATURE]
      simp [h]

/-- An all-zero 512-byte sector (invalid signature). -/
def sector_zeros : List Nat := List.replicate 512 0

/-- A sector with a valid MBR signature and no 0xEE descriptor. -/
def sector_traditional : List Nat :=
  ((List.replicate 512 0).set 510 0x55).set 511 0xAA

/-- A sector with a valid MBR signature and a 0xEE type byte in slot 0. -/
def sector_protective : List Nat :=
  (((List.replicate 512 0).set 510 0x55).set 511 0xAA).set 450 0xEE

/-- Witness for C2 at three concrete sectors, one per classification. -/
theorem is_mbr_classification_witness :
    is_mbr (decode_mbr sector_zeros) = 0 ∧
    is_mbr (decode_mbr sector_protective) = 2 ∧
    is_mbr (decode_mbr sector_traditional) = 1 :=
  ⟨(is_mbr_classification sector_zeros).1 (by decide),
   ((is_mbr_classification sector_protective).2 (by decide)).1
     ⟨0, by decide, by decide⟩,
   ((is_mbr_classification sector_traditional).2 (by decide)).2
     (by decide)⟩

/-! ## GPT header (gpt.h, struct gpt_header)

The struct as written in gpt.h:58-74 declares `revision`, `header_size`,
`header_crc32`, `reserved`, `partition_entry_array_crc32` and `reserved2` as
`unsigned short` (16 bits).  The packed struct therefore occupies 84 bytes and
every field after the 8-byte signature sits at a different offset than in the
spec's (and UEFI's) 92-byte layout. -/

structure gpt_header where
  signature : List Nat
  revision : Nat
  header_size : Nat
  header_crc32 : Nat
  reserved : Nat
  current_lba : Nat
  backup_lba : Nat
  first_usable_lba : Nat
  last_usable_lba : Nat
  partition_entry_type_guid : guid
  partition_entries_lba : Nat
  num_partition_entries : Nat
  partition_entry_size : Nat
  partition_entry_array_crc32 : Nat
  reserved2 : Nat
deriving DecidableEq, Repr

/-- Number of bytes of the packed `gpt_header` struct of gpt.h
(8 + 2 + 2 + 2 + 2 + 8 + 8 + 8 + 8 + 16 + 8 + 4 + 4 + 2 + 2). -/
def gpt_header_sizeof : Nat :=
  8 + 2 + 2 + 2 + 2 + 8 + 8 + 8 + 8 + 16 + 8 + 4 + 4 + 2 + 2

/-- Overlay of a sector buffer with the packed `gpt_header` struct of gpt.h:
the `memcpy(&hdr, buffer, sizeof(gpt_header))` of main.c:122.  Offsets follow
the struct as declared: the four 16-bit fields after the signature put
`current_lba` at offset 16, the type GUID at 48, `partition_entries_lba` at
64, `num_partition_entries` at 72 and `partition_entry_size` at 76. -/
def decode_gpt_header (bs : List Nat) : gpt_header :=
  { signature := bs.take 8
    revision := readLE bs 8 2
    header_size := readLE bs 10 2
    header_crc32 := readLE bs 12 2
    reserved := readLE bs 14 2
    current_lba := readLE bs 16 8
    backup_lba := readLE bs 24 8
    first_usable_lba := readLE bs 32 8
    last_usable_lba := readLE bs 40 8
    partition_entry_type_guid := decode_guid bs 48
    partition_entries_lba := readLE bs 64 8
    num_partition_entries := readLE bs 72 4
    partition_entry_size := readLE bs 76 4
    partition_entry_array_crc32 := readLE bs 80 2
    reserved2 := readLE bs 82 2 }

/-- The GPT header as the specification lays it out: `revision`,
`header_size`, `header_crc32` and `reserved` are 32-bit fields, the header
occupies the first 92 bytes of the sector.  This definition follows the
spec's words, to be compared with `decode_gpt_header` above. -/
structure GptHeaderSpec where
  signature : List Nat
  revision : Nat
  header_size : Nat
  header_crc32 : Nat
  reserved : Nat
  my_lba : Nat
  alternate_lba : Nat
  first_usable_lba : Nat
  last_usable_lba : Nat
  disk_guid : guid
  partition_entry_lba : Nat
  num_partition_entries : Nat
  partition_entry_size : Nat
  partition_entry_array_crc32 : Nat
deriving DecidableEq, Repr

/-- Decode of a sector at the spec's field layout: u32 fields at offsets
8, 12, 16, 20; u64 fields at 24..55; `disk_guid` at 56;
`partition_entry_lba` at 72; `num_partition_entries` at 80;
`partition_entry_size` at 84; `partition_entry_array_crc32` at 88. -/
def decode_gpt_header_spec (bs : List Nat) : GptHeaderSpec :=
  { signature := bs.take 8
    revision := readLE bs 8 4
    header_size := readLE bs 12 4
    header_crc32 := readLE bs 16 4
    reserved := readLE bs 20 4
    my_lba := readLE bs 24 8
    alternate_lba := readLE bs 32 8
    first_usable_lba := readLE bs 40 8
    last_usable_lba := readLE bs 48 8
    disk_guid := decode_guid bs 56
    partition_entry_lba := readLE bs 72 8
    num_partition_entries := readLE bs 80 4
    partition_entry_size := readLE bs 84 4
    partition_entry_array_crc32 := readLE bs 88 4 }

/-- A 512-byte sector whose byte at offset `i` is `i % 256`; distinct offsets
within each 256-byte half hold distinct values, so it separates reads made at
different offsets. -/
def sector_ramp : List Nat := (List.range 512).map (fun i => i % 256)

/-- C1: the decoded GPT header does not have the spec's field layout.  The
struct of gpt.h declares revision, header_size, header_crc32 and reserved as
16-bit fields, so the packed struct is 84 bytes (not 92) and, on the ramp
sector, partition_entries_lba, num_partition_entries, partition_entry_size
and partition_entry_array_crc32 are all read from byte offsets differing
from the ones the spec's layout implies (64 vs 72, 72 vs 80, 76 vs 84,
80 vs 88); the code reads no field at the spec's disk_guid offset 56 at all
(offset 48 instead). -/
theorem gpt_header_layout_divergence :
    gpt_header_sizeof = 84 ∧ gpt_header_sizeof ≠ 92 ∧
    (decode_gpt_header sector_ramp).partition_entries_lba ≠
      (decode_gpt_header_spec sector_ramp).partition_entry_lba ∧
    (decode_gpt_header sector_ramp).num_partition_entries ≠
      (decode_gpt_header_spec sector_ramp).num_partition_entries ∧
    (decode_gpt_header sector_ramp).partition_entry_size ≠
      (decode_gpt_header_spec sector_ramp).partition_entry_size ∧
    (decode_gpt_header sector_ramp).partition_entry_array_crc32 ≠
      (decode_gpt_header_spec sector_ramp).partition_entry_array_crc32 ∧
    (decode_gpt_header sector_ramp).partition_entry_type_guid ≠
      (decode_gpt_header_spec sector_ramp).disk_guid := by
  refine ⟨rfl, by decide, ?_, ?_, ?_, ?_, ?_⟩ <;> decide

/-! ## GPT partition descriptors and the entry-array addressing of main.c -/

/-- Number of bytes of the packed `gpt_partition_descriptor` struct of
gpt.h:87-94 (16 + 16 + 8 + 8 + 8 + 72). -/
def gpt_partition_descriptor_sizeof : Nat := 16 + 16 + 8 + 8 + 8 + 72

/-- Struct `gpt_partition_descriptor` (gpt.h:87-94), packed, 128 bytes; the raw
72-byte name field is kept as bytes. -/
structure gpt_partition_descriptor where
  partition_type_guid : guid
  unique_partition_guid : guid
  starting_lba : Nat
  ending_lba : Nat
  attributes : Nat
  partition_name : List Nat
deriving DecidableEq, Repr

/-- Overlay of a buffer with the packed `gpt_partition_descriptor` struct at
offset `off` (the `memcpy(&desc, buffer, sizeof(gpt_partition_descriptor))`
of main.c:152 is the case `off = 0`). -/
def decode_gpt_partition_descriptor (bs : List Nat) (off : Nat) :
    gpt_partition_descriptor :=
  { partition_type_guid := decode_guid bs off
    unique_partition_guid := decode_guid bs (off + 16)
    starting_lba := readLE bs (off + 32) 8
    ending_lba := readLE bs (off + 40) 8
    attributes := readLE bs (off + 48) 8
    partition_name := ((bs.drop (off + 56)).take 72) }

/-- The sector LBA main.c:142 computes for entry `i`:
`partition_entries_lba + (i * entry_size) / SECTOR_SIZE`. -/
def entry_sector_lba (partition_entries_lba entry_size i : Nat) : Nat :=
  partition_entries_lba + (i * entry_size) / 512

/-- The bytes main.c:141-152 decodes for entry `i`: it reads the sector at
`entry_sector_lba` and copies `sizeof(gpt_partition_descriptor)` bytes from
the start of that sector buffer (intra-sector offset 0). -/
def entry_bytes_code (disk : Nat → List Nat)
    (partition_entries_lba entry_size i : Nat) : List Nat :=
  (disk (entry_sector_lba partition_entries_lba entry_size i)).take
    gpt_partition_descriptor_sizeof

/-- The bytes of entry `i` of the on-disk entry array, following the spec's
words: byte `j` of entry `i` lives at absolute byte offset
`partition_entries_lba*512 + i*entry_size + j`, translated into a sector LBA
and an intra-sector offset (an entry straddling a sector boundary takes its
bytes from two consecutive sectors).  This definition follows the spec, to
be compared with `entry_bytes_code` above. -/
def entry_bytes_spec (disk : Nat → List Nat)
    (partition_entries_lba entry_size i : Nat) : List Nat :=
  (List.range entry_size).map (fun j =>
    let off := partition_entries_lba * 512 + i * entry_size + j
    byteAt (disk (off / 512)) (off % 512))

/-- A disk whose byte at absolute offset `o` is `o % 256`; it separates reads
made at different absolute byte offsets within any 256-byte window. -/
def disk_ramp (lba : Nat) : List Nat :=
  (List.range 512).map (fun j => (lba * 512 + j) % 256)

/-- C3: with the standard geometry `partition_entry_size = 128` and
`partition_entries_lba = 2`, the bytes main.c decodes for entry 1 are not
the bytes of entry 1 of the on-disk array (which start at intra-sector
offset 128): the code ignores the intra-sector offset `(i*entry_size) % 512`
and decodes the very same bytes for entry 1 as for entry 0, while the
spec-addressed bytes of entry 0 (which is sector-aligned) do coincide with
the code's. -/
theorem gpt_entry_addressing_divergence :
    entry_bytes_code disk_ramp 2 128 1 ≠ entry_bytes_spec disk_ramp 2 128 1 ∧
    entry_bytes_code disk_ramp 2 128 1 = entry_bytes_code disk_ramp 2 128 0 ∧
    entry_bytes_code disk_ramp 2 128 0 = entry_bytes_spec disk_ramp 2 128 0 := by
  refine ⟨by decide, by decide, by decide⟩

/-! ## GPT entry enumeration (main.c:131-167) -/

/-- Modelled from the spec: the implementation of `is_null_descriptor`
(declared at gpt.h:174, its translation unit is not among the sources) — an
entry is empty iff its `partition_type_guid` is the all-zero GUID. -/
def is_null_descriptor (desc : gpt_partition_descriptor) : Bool :=
  desc.partition_type_guid == zero_guid

/-- The name main.c:163 stores for slot `i`:
`snprintf(..., "Partición %u", i + 1)` (the 21-byte maximum of the formatted
text always fits the 72-byte field, so snprintf never truncates it). -/
def partition_label (i : Nat) : String := "Partición " ++ toString (i + 1)

/-- The fields main.c:159-163 stores for a non-empty slot. -/
structure stored_partition where
  starting_lba : Nat
  ending_lba : Nat
  partition_type_guid : guid
  partition_name : String
deriving DecidableEq, Repr

/-- Outcome of the enumeration loop of main.c:141-164: the slots stored
(with their indices), the number of loop iterations that ran to completion,
and the index of the first unreadable descriptor sector (`break`), if any. -/
structure EnumState where
  stored : List (Nat × stored_partition)
  considered : Nat
  read_error : Option Nat
deriving DecidableEq, Repr

/-- The loop body of main.c:141-164, starting at index `i` with `fuel`
iterations left: read the sector `partition_entries_lba + (i*entry_size)/512`,
`break` if unreadable, decode the descriptor from the buffer start, skip it
if null, otherwise store starting/ending LBA, type GUID and the
`partition_label` name. -/
def enum_go (disk : Nat → Option (List Nat)) (pel es : Nat) :
    Nat → Nat → EnumState
  | _, 0 => ⟨[], 0, none⟩
  | i, fuel + 1 =>
    match disk (entry_sector_lba pel es i) with
    | none => ⟨[], 0, some i⟩
    | some buffer =>
      let desc := decode_gpt_partition_descriptor buffer 0
      let rest := enum_go disk pel es (i + 1) fuel
      if is_null_descriptor desc then
        ⟨rest.stored, rest.considered + 1, rest.read_error⟩
      else
        ⟨(i, ⟨desc.starting_lba, desc.ending_lba, desc.partition_type_guid,
              partition_label i⟩) :: rest.stored,
         rest.considered + 1, rest.read_error⟩

/-- The enumeration loop `for (i = 0; i < num_entries; i++)` of main.c:141. -/
def enumerate_gpt_entries (disk : Nat → Option (List Nat))
    (pel es num : Nat) : EnumState :=
  enum_go disk pel es 0 num

/-- main.c:131-167 after header validation: run the enumeration loop and then
call `print_gpt_partition_table(&hdr, partitions, num_entries)` — the call at
line 167 is unconditional, so the second component (the slot count handed to
the printer) is produced whether or not the loop hit a read failure. -/
def gpt_enumerate_and_print (disk : Nat → Option (List Nat))
    (hdr : gpt_header) : EnumState × Nat :=
  (enumerate_gpt_entries disk hdr.partition_entries_lba
      hdr.partition_entry_size hdr.num_partition_entries,
   hdr.num_partition_entries)

/-- A GPT header with the standard geometry: entry array at LBA 2,
4 entries of 128 bytes. -/
def hdr_std : gpt_header :=
  { signature := [0x45, 0x46, 0x49, 0x20, 0x50, 0x41, 0x52, 0x54]
    revision := 0x0100
    header_size := 92
    header_crc32 := 0
    reserved := 0
    current_lba := 1
    backup_lba := 0
    first_usable_lba := 34
    last_usable_lba := 0
    partition_entry_type_guid := zero_guid
    partition_entries_lba := 2
    num_partition_entries := 4
    partition_entry_size := 128
    partition_entry_array_crc32 := 0
    reserved2 := 0 }

/-- A disk on which no sector is readable. -/
def disk_unreadable : Nat → Option (List Nat) := fun _ => none

/-- C6: on a disk whose first entry sector is unreadable, the loop does stop
at index 0 with a read failure (no slot stored, no iteration completed), yet
the partition table is still printed for all 4 declared slots: the read
failure does not abort the presentation of the result, the printed list is a
truncated one presented as output. -/
theorem gpt_enum_read_failure_still_prints :
    (gpt_enumerate_and_print disk_unreadable hdr_std).1.read_error = some 0 ∧
    (gpt_enumerate_and_print disk_unreadable hdr_std).1.stored = [] ∧
    (gpt_enumerate_and_print disk_unreadable hdr_std).1.considered = 0 ∧
    (gpt_enumerate_and_print disk_unreadable hdr_std).2 = 4 := by
  refine ⟨rfl, rfl, rfl, rfl⟩

/-- Invariant of the enumeration loop: when every descriptor sector it
touches is readable, a run of `fuel` iterations completes them all with no
read error, stores at most `fuel` slots, and stores only slots whose type
GUID is not all-zero. -/
theorem enum_go_bounds (disk : Nat → Option (List Nat)) (pel es : Nat) :
    ∀ fuel i,
      (∀ k, k < fuel → (disk (entry_sector_lba pel es (i + k))).isSome) →
      (enum_go disk pel es i fuel).considered = fuel ∧
      (enum_go disk pel es i fuel).read_error = none ∧
      (enum_go disk pel es i fuel).stored.length ≤ fuel ∧
      ∀ p ∈ (enum_go disk pel es i fuel).stored,
        p.2.partition_type_guid ≠ zero_guid := by
  intro fuel
  induction fuel with
  | zero => intro i _; exact ⟨rfl, rfl, Nat.le_refl 0, fun p hp => absurd hp (by simp [enum_go])⟩
  | succ n ih =>
    intro i h
    have h0 : (disk (entry_sector_lba pel es i)).isSome := by
      have := h 0 (Nat.succ_pos n)
      simpa using this
    obtain ⟨buffer, hb⟩ := Option.isSome_iff_exists.mp h0
    have hrest := ih (i + 1) (fun k hk => by
      have := h (k + 1) (Nat.succ_lt_succ hk)
      simpa [Nat.add_assoc, Nat.add_comm 1 k] using this)
    obtain ⟨hc, he, hl, hm⟩ := hrest
    by_cases hnull :
        is_null_descriptor (decode_gpt_partition_descriptor buffer 0) = true
    · refine ⟨?_, ?_, ?_, ?_⟩ <;>
        simp only [enum_go, hb, hnull, if_pos, if_true]
      · rw [hc]
      · exact he
      · exact Nat.le_succ_of_le hl
      · exact hm
    · refine ⟨?_, ?_, ?_, ?_⟩ <;>
        simp only [enum_go, hb, hnull, if_neg, Bool.false_eq_true,
          not_false_iff, if_false]
      · rw [hc]
      · exact he
      · simpa using Nat.succ_le_succ hl
      · intro p hp
        rcases List.mem_cons.mp hp with hp1 | hp2
        · subst hp1
          simp only [ne_eq]
          intro hzero
          apply hnull
          simp only [is_null_descriptor, beq_iff_eq]
          exact hzero
        · exact hm p hp2

/-- C7: when every descriptor sector is readable, the enumeration loop
considers exactly `num_partition_entries` candidate slots, and the stored
(filtered) output has at most `num_partition_entries` records, each of which
has a non-all-zero partition type GUID. -/
theorem gpt_enumeration_bounds (disk : Nat → Option (List Nat))
    (pel es num : Nat)
    (h : ∀ i, i < num → (disk (entry_sector_lba pel es i)).isSome) :
    (enumerate_gpt_entries disk pel es num).considered = num ∧
    (enumerate_gpt_entries disk pel es num).stored.length ≤ num ∧
    ∀ p ∈ (enumerate_gpt_entries disk pel es num).stored,
      p.2.partition_type_guid ≠ zero_guid :=
  (enum_go_bounds disk pel es num 0 (fun k hk => by
      simpa using h k hk)).2.2.1 |> fun hl =>
    ⟨(enum_go_bounds disk pel es num 0 (fun k hk => by simpa using h k hk)).1,
     hl,
     (enum_go_bounds disk pel es num 0 (fun k hk => by simpa using h k hk)).2.2.2⟩

/-- A sector whose first byte is 1: the descriptor decoded at its start has
`partition_type_guid.time_lo = 1`, hence is non-null. -/
def sector_entry : List Nat := 1 :: List.replicate 511 0

/-- A disk every sector of which reads as `sector_entry`. -/
def disk_entries : Nat → Option (List Nat) := fun _ => some sector_entry

/-- Witness for C7: concrete enumeration of 2 slots on a fully readable
disk. -/
theorem gpt_enumeration_bounds_witness :
    (enumerate_gpt_entries disk_entries 2 128 2).considered = 2 ∧
    (enumerate_gpt_entries disk_entries 2 128 2).stored.length ≤ 2 ∧
    ∀ p ∈ (enumerate_gpt_entries disk_entries 2 128 2).stored,
      p.2.partition_type_guid ≠ zero_guid :=
  gpt_enumeration_bounds disk_entries 2 128 2 (by decide)

/-! ## Partition names (C8) -/

/-- The two-byte little-endian code units of a raw name field. -/
def name_units : List Nat → List Nat
  | b0 :: b1 :: rest => (b0 + 256 * b1) :: name_units rest
  | _ => []

/-- Best-effort decoding of one code unit: a valid scalar value becomes that
character, anything else the replacement character. -/
def decode_name_unit (u : Nat) : Char :=
  if h : u.isValidChar then Char.ofNatAux u h else '�'

/-- Modelled from the spec: the implementation of
`gpt_decode_partition_name` (declared at gpt.h:144, its translation unit is
not among the sources) — decode the 72-byte field as two-byte code units,
stopping at the first zero unit or after 36 units, whichever comes first;
malformed units are passed through best-effort as the replacement character
rather than failing. -/
def gpt_decode_partition_name (name : List Nat) : String :=
  (((name_units (name.take 72)).take 36).takeWhile (fun u => u != 0)).map
      decode_name_unit |>.asString

/-- The raw name field holding "EFI System" as two-byte little-endian code
units followed by zero padding (72 bytes total). -/
def efi_name_field : List Nat :=
  [0x45, 0, 0x46, 0, 0x49, 0, 0x20, 0, 0x53, 0, 0x79, 0, 0x73, 0,
   0x74, 0, 0x65, 0, 0x6D, 0] ++ List.replicate 52 0

/-- A sector holding one non-null descriptor at its start whose raw
`partition_name` field (bytes 56..127) reads "EFI System". -/
def sector_named : List Nat :=
  1 :: List.replicate 55 0 ++ efi_name_field ++ List.replicate 384 0

/-- A disk every sector of which reads as `sector_named`. -/
def disk_named : Nat → Option (List Nat) := fun _ => some sector_named

/-- The record main.c stores for slot 0 of `disk_named`. -/
def record_named : stored_partition :=
  ⟨0, 0, ⟨1, 0, 0, 0, 0, [0, 0, 0, 0, 0, 0]⟩, "Partición 1"⟩

/-- Counterexample to C8: enumerating a disk whose sole entry carries the
raw name "EFI System" stores a record named "Partición 1" — the string
main.c:163 formats from the slot index — which is not the decoding of the
entry's raw 72-byte name field. -/
theorem gpt_partition_name_not_decoded :
    (enumerate_gpt_entries disk_named 2 128 1).stored = [(0, record_named)] ∧
    gpt_decode_partition_name ((sector_named.drop 56).take 72) =
      "EFI System" ∧
    record_named.partition_name ≠
      gpt_decode_partition_name ((sector_named.drop 56).take 72) := by
  refine ⟨by decide, by decide, by decide⟩

/-- Name invariant of the enumeration loop: every stored slot's name is the
formatted label of its index. -/
theorem enum_go_name (disk : Nat → Option (List Nat)) (pel es : Nat) :
    ∀ fuel i0 i rec, (i, rec) ∈ (enum_go disk pel es i0 fuel).stored →
      rec.partition_name = partition_label i := by
  intro fuel
  induction fuel with
  | zero => intro i0 i rec h; exact absurd h (by simp [enum_go])
  | succ n ih =>
    intro i0 i rec h
    rcases hb : disk (entry_sector_lba pel es i0) with _ | buffer
    · rw [enum_go, hb] at h
      exact absurd h (by simp)
    · rw [enum_go, hb] at h
      simp only at h
      by_cases hnull :
          is_null_descriptor (decode_gpt_partition_descriptor buffer 0) = true
      · rw [if_pos hnull] at h
        exact ih (i0 + 1) i rec h
      · rw [if_neg hnull] at h
        rcases List.mem_cons.mp h with h1 | h2
        · injection h1 with h3 h4
          subst h3
          subst h4
          rfl
        · exact ih (i0 + 1) i rec h2

/-- C8 amended: each stored GPT partition record's name is the string
"Partición " followed by the 1-based slot index, produced by main.c:163's
snprintf; the entry's raw 72-byte partition_name field plays no part in it. -/
theorem gpt_partition_name_is_label (disk : Nat → Option (List Nat))
    (pel es num i : Nat) (rec : stored_partition)
    (h : (i, rec) ∈ (enumerate_gpt_entries disk pel es num).stored) :
    rec.partition_name = "Partición " ++ toString (i + 1) :=
  enum_go_name disk pel es num 0 i rec h

/-- Witness for the amended C8 at the concrete one-entry disk. -/
theorem gpt_partition_name_is_label_witness :
    record_named.partition_name = "Partición " ++ toString (0 + 1) :=
  gpt_partition_name_is_label disk_named 2 128 1 0 record_named (by decide)

/-! ## Header validation (C4, C5)

The translation unit implementing `is_valid_gpt_header` is not among the
sources, so the validator is modelled from §4.2 of the spec.  CRC32 is the
standard reflected CRC-32/ISO-HDLC (polynomial 0xEDB88320, initial value and
final xor 0xFFFFFFFF). -/

/-- One bit step of the reflected CRC32: shift right, xor the polynomial in
when the dropped bit was set. -/
def crc32_step (c : Nat) : Nat :=
  if c % 2 = 1 then (c / 2) ^^^ 0xEDB88320 else c / 2

/-- Apply `k` bit steps. -/
def crc32_steps : Nat → Nat → Nat
  | 0, c => c
  | k + 1, c => crc32_steps k (crc32_step c)

/-- Absorb one byte into the running CRC. -/
def crc32_byte (c b : Nat) : Nat := crc32_steps 8 (c ^^^ (b % 256))

/-- CRC-32/ISO-HDLC of a byte list. -/
def crc32 (data : List Nat) : Nat :=
  (data.foldl crc32_byte 0xFFFFFFFF) ^^^ 0xFFFFFFFF

/-- The ASCII bytes of "EFI PART". -/
def gpt_signature_bytes : List Nat :=
  [0x45, 0x46, 0x49, 0x20, 0x50, 0x41, 0x52, 0x54]

/-- The configured maximum for `num_partition_entries` (spec §3: reject
absurd values from corrupt media, e.g. > 4096). -/
def GPT_MAX_PARTITION_ENTRIES : Nat := 4096

/-- The stored `header_crc32` field (spec layout: u32 at offset 16). -/
def gpt_header_crc_stored (bs : List Nat) : Nat := readLE bs 16 4

/-- The header sector with the `header_crc32` field (bytes 16..19) zeroed,
as §4.2 prescribes for the CRC computation. -/
def zero_crc_field (bs : List Nat) : List Nat :=
  (((bs.set 16 0).set 17 0).set 18 0).set 19 0

/-- The CRC32 computed over the header's `header_size` bytes with the
`header_crc32` field zeroed. -/
def gpt_header_crc_computed (bs : List Nat) : Nat :=
  crc32 ((zero_crc_field bs).take (decode_gpt_header_spec bs).header_size)

/-- Modelled from the spec: the implementation of `is_valid_gpt_header`
(declared at gpt.h:164, its translation unit is not among the sources) —
§4.2's validation: signature is "EFI PART"; `header_size` within [92, 512];
`partition_entry_size` positive, a divisor of 512 and at most 512;
`num_partition_entries` at most the configured maximum; CRC32 of the header
bytes with the crc field zeroed equals the stored `header_crc32`.  The model
takes the raw header sector.  The partition-entry count it bounds is the one
the C function actually receives and the caller actually uses: main.c:122
overlays the sector with the packed struct of gpt.h and main.c:134-141 sizes
the VLA and the enumeration loop by `hdr.num_partition_entries`, which under
that layout is the u32 at sector bytes 72..75 (`decode_gpt_header`), not the
u32 at the spec's offset 80; bounding any other field would leave the
enumeration count unbounded. -/
def is_valid_gpt_header (bs : List Nat) : Bool :=
  (bs.take 8 == gpt_signature_bytes) &&
  (decide (92 ≤ (decode_gpt_header_spec bs).header_size) &&
   decide ((decode_gpt_header_spec bs).header_size ≤ 512)) &&
  (decide (0 < (decode_gpt_header_spec bs).partition_entry_size) &&
   (512 % (decode_gpt_header_spec bs).partition_entry_size == 0) &&
   decide ((decode_gpt_header_spec bs).partition_entry_size ≤ 512)) &&
  decide ((decode_gpt_header bs).num_partition_entries ≤
    GPT_MAX_PARTITION_ENTRIES) &&
  (gpt_header_crc_computed bs == gpt_header_crc_stored bs)

/-- The GPT branch of `main` (main.c:110-167): read LBA 1 (skip the device
if unreadable), overlay the `gpt_header` struct, validate — an invalid
header skips the device (`continue` at main.c:127) before any enumeration —
and otherwise enumerate the entries and print the table.  The spec-modelled
validator is given the raw header sector; the geometry driving the
enumeration comes from the struct overlay (`decode_gpt_header`), and the
validator's count bound is on that same overlay field, so the count it
accepts is the count the enumeration runs with. -/
def analyze_gpt_device (disk : Nat → Option (List Nat)) :
    Option (EnumState × Nat) :=
  match disk 1 with
  | none => none
  | some buffer =>
    if is_valid_gpt_header buffer then
      some (gpt_enumerate_and_print disk (decode_gpt_header buffer))
    else none

/-- C4: a header sector whose computed CRC32 (over the header bytes with the
crc field zeroed) differs from the stored `header_crc32` fails validation,
and a device presenting it at LBA 1 is rejected before any enumeration. -/
theorem gpt_header_crc_mismatch_rejected (bs : List Nat)
    (h : gpt_header_crc_computed bs ≠ gpt_header_crc_stored bs) :
    is_valid_gpt_header bs = false ∧
    ∀ disk : Nat → Option (List Nat), disk 1 = some bs →
      analyze_gpt_device disk = none := by
  have hfalse : is_valid_gpt_header bs = false := by
    have he : (gpt_header_crc_computed bs == gpt_header_crc_stored bs)
        = false := by simpa using h
    simp [is_valid_gpt_header, he]
  refine ⟨hfalse, fun disk hd => ?_⟩
  unfold analyze_gpt_device
  rw [hd]
  simp [hfalse]

/-- A header sector whose stored `header_crc32` (1, bytes 16..19) does not
match the CRC32 computed over its declared header span (its `header_size`
field is 0, so the computed CRC is that of the empty span, 0). -/
def sector_crc_bad : List Nat :=
  gpt_signature_bytes ++ [0, 0, 1, 0] ++ [0, 0, 0, 0] ++ [1, 0, 0, 0] ++
    List.replicate 492 0

/-- Witness for C4 at a concrete mismatching sector and device. -/
theorem gpt_header_crc_mismatch_rejected_witness :
    is_valid_gpt_header sector_crc_bad = false ∧
    analyze_gpt_device
      (fun lba => if lba = 1 then some sector_crc_bad else none) = none := by
  have h := gpt_header_crc_mismatch_rejected sector_crc_bad (by decide)
  exact ⟨h.1, h.2 _ (by decide)⟩

/-- Maximum-count invariant of the enumeration loop: a run of `fuel`
iterations completes at most `fuel` of them. -/
theorem enum_go_considered_le (disk : Nat → Option (List Nat)) (pel es : Nat) :
    ∀ fuel i, (enum_go disk pel es i fuel).considered ≤ fuel := by
  intro fuel
  induction fuel with
  | zero => intro i; exact Nat.le_refl 0
  | succ m ih =>
    intro i
    rcases hb : disk (entry_sector_lba pel es i) with _ | buffer
    · simp only [enum_go, hb]
      exact Nat.zero_le _
    · by_cases hnull :
          is_null_descriptor (decode_gpt_partition_descriptor buffer 0) = true
      · simp only [enum_go, hb, hnull, if_pos, if_true]
        exact Nat.succ_le_succ (ih (i + 1))
      · simp only [enum_go, hb, hnull, Bool.false_eq_true, not_false_iff,
          if_false]
        exact Nat.succ_le_succ (ih (i + 1))

/-- C5: header validation rejects any header whose `num_partition_entries`
— the struct-overlay field at sector bytes 72..75, the very count that sizes
the VLA and the enumeration loop of main.c:134-141 — exceeds the configured
maximum; consequently every accepted device analysis hands the printer a
count of at most that maximum and completes at most that many loop
iterations, so enumeration is never driven by an unbounded count from a
corrupt header. -/
theorem gpt_num_entries_bounded :
    (∀ bs : List Nat,
      GPT_MAX_PARTITION_ENTRIES <
          (decode_gpt_header bs).num_partition_entries →
        is_valid_gpt_header bs = false ∧
        ∀ disk : Nat → Option (List Nat), disk 1 = some bs →
          analyze_gpt_device disk = none) ∧
    (∀ (disk : Nat → Option (List Nat)) (st : EnumState) (n : Nat),
      analyze_gpt_device disk = some (st, n) →
      n ≤ GPT_MAX_PARTITION_ENTRIES ∧
      st.considered ≤ GPT_MAX_PARTITION_ENTRIES) := by
  constructor
  · intro bs h
    have hfalse : is_valid_gpt_header bs = false := by
      have he : decide ((decode_gpt_header bs).num_partition_entries ≤
          GPT_MAX_PARTITION_ENTRIES) = false := by
        simpa using Nat.not_le.mpr h
      simp [is_valid_gpt_header, he]
    refine ⟨hfalse, fun disk hd => ?_⟩
    unfold analyze_gpt_device
    rw [hd]
    simp [hfalse]
  · intro disk st n h
    rcases hd : disk 1 with _ | buffer
    · have hb : analyze_gpt_device disk = none := by
        unfold analyze_gpt_device
        rw [hd]
      rw [hb] at h
      exact absurd h (by simp)
    · by_cases hv : is_valid_gpt_header buffer = true
      · have hb : analyze_gpt_device disk =
            some (gpt_enumerate_and_print disk (decode_gpt_header buffer)) := by
          unfold analyze_gpt_device
          rw [hd]
          simp [hv]
        rw [hb] at h
        have hp := Option.some.inj h
        unfold gpt_enumerate_and_print at hp
        injection hp with hst hn
        have hnum : (decode_gpt_header buffer).num_partition_entries ≤
            GPT_MAX_PARTITION_ENTRIES := by
          unfold is_valid_gpt_header at hv
          simp only [Bool.and_eq_true, decide_eq_true_eq] at hv
          exact hv.1.2
        subst hn
        refine ⟨hnum, ?_⟩
        rw [← hst]
        exact Nat.le_trans
          (enum_go_considered_le disk
            (decode_gpt_header buffer).partition_entries_lba
            (decode_gpt_header buffer).partition_entry_size
            (decode_gpt_header buffer).num_partition_entries 0)
          hnum
      · have hb : analyze_gpt_device disk = none := by
          unfold analyze_gpt_device
          rw [hd]
          simp [hv]
        rw [hb] at h
        exact absurd h (by simp)

/-- A header sector declaring 5000 partition entries in the struct-overlay
count field (bytes 72..75). -/
def sector_too_many_entries : List Nat :=
  gpt_signature_bytes ++ List.replicate 64 0 ++ [0x88, 0x13, 0, 0] ++
    List.replicate 436 0

/-- A fully valid header sector: "EFI PART" signature, spec header_size 92,
struct-overlay count 4 and entry size 128 (bytes 72..79), spec entry size
128 (bytes 84..87), and a stored `header_crc32` (bytes 16..19) equal to the
CRC32 of its 92 header bytes with that field zeroed. -/
def sector_gpt_valid : List Nat :=
  gpt_signature_bytes ++ [0, 0, 1, 0] ++ [92, 0, 0, 0] ++
    [15, 213, 105, 119] ++ List.replicate 52 0 ++ [4, 0, 0, 0] ++
    [128, 0, 0, 0] ++ [0, 0, 0, 0] ++ [128, 0, 0, 0] ++ List.replicate 424 0

/-- The 92 header bytes of `sector_gpt_valid` with the crc field zeroed: the
span its header CRC32 is computed over. -/
def crc_span_bytes : List Nat :=
  [69, 70, 73, 32, 80, 65, 82, 84, 0, 0, 1, 0,
   92, 0, 0, 0, 0, 0, 0, 0, 0, 0, 0, 0,
   0, 0, 0, 0, 0, 0, 0, 0, 0, 0, 0, 0,
   0, 0, 0, 0, 0, 0, 0, 0, 0, 0, 0, 0,
   0, 0, 0, 0, 0, 0, 0, 0, 0, 0, 0, 0,
   0, 0, 0, 0, 0, 0, 0, 0, 0, 0, 0, 0,
   4, 0, 0, 0, 128, 0, 0, 0, 0, 0, 0, 0,
   128, 0, 0, 0, 0, 0, 0, 0]

/-- Value of the CRC32 byte fold over `crc_span_bytes`, evaluated one byte
step at a time (each step is a shallow kernel computation). -/
theorem crc32_span_fold :
    crc_span_bytes.foldl crc32_byte 4294967295 = 2291542768 := by
  have s0 : crc32_byte 4294967295 69 = 726377837 := by decide
  have s1 : crc32_byte 726377837 70 = 2895622885 := by decide
  have s2 : crc32_byte 2895622885 73 = 3754719345 := by decide
  have s3 : crc32_byte 3754719345 32 = 481537306 := by decide
  have s4 : crc32_byte 481537306 80 = 2517965603 := by decide
  have s5 : crc32_byte 2517965603 65 = 2737444207 := by decide
  have s6 : crc32_byte 2737444207 82 = 1489724932 := by decide
  have s7 : crc32_byte 1489724932 84 = 1798544018 := by decide
  have s8 : crc32_byte 1798544018 0 = 510312946 := by decide
  have s9 : crc32_byte 510312946 0 = 1403910641 := by decide
  have s10 : crc32_byte 1403910641 1 = 3186515941 := by decide
  have s11 : crc32_byte 3186515941 0 = 3504208040 := by decide
  have s12 : crc32_byte 3504208040 92 = 3120622589 := by decide
  have s13 : crc32_byte 3120622589 0 = 3283521098 := by decide
  have s14 : crc32_byte 3283521098 0 = 2529828352 := by decide
  have s15 : crc32_byte 2529828352 0 = 9882142 := by decide
  have s16 : crc32_byte 9882142 0 = 4195330985 := by decide
  have s17 : crc32_byte 4195330985 0 = 2951746791 := by decide
  have s18 : crc32_byte 2951746791 0 = 1052870607 := by decide
  have s19 : crc32_byte 1052870607 0 = 199564966 := by decide
  have s20 : crc32_byte 199564966 0 = 1069474755 := by decide
  have s21 : crc32_byte 1069474755 0 = 38940137 := by decide
  have s22 : crc32_byte 38940137 0 = 3654551793 := by decide
  have s23 : crc32_byte 3654551793 0 = 3395491458 := by decide
  have s24 : crc32_byte 3395491458 0 = 58491162 := by decide
  have s25 : crc32_byte 58491162 0 = 4251026939 := by decide
  have s26 : crc32_byte 4251026939 0 = 714230289 := by decide
  have s27 : crc32_byte 714230289 0 = 1788523192 := by decide
  have s28 : crc32_byte 1788523192 0 = 3318784268 := by decide
  have s29 : crc32_byte 3318784268 0 = 158571658 := by decide
  have s30 : crc32_byte 158571658 0 = 224663970 := by decide
  have s31 : crc32_byte 224663970 0 = 953525981 := by decide
  have s32 : crc32_byte 953525981 0 = 4166679503 := by decide
  have s33 : crc32_byte 4166679503 0 = 186877274 := by decide
  have s34 : crc32_byte 186877274 0 = 2343934831 := by decide
  have s35 : crc32_byte 2343934831 0 = 3716598098 := by decide
  have s36 : crc32_byte 3716598098 0 = 2243474961 := by decide
  have s37 : crc32_byte 2243474961 0 = 1781897284 := by decide
  have s38 : crc32_byte 1781897284 0 = 1910222865 := by decide
  have s39 : crc32_byte 1910222865 0 = 1791097666 := by decide
  have s40 : crc32_byte 1791097666 0 = 2562253127 := by decide
  have s41 : crc32_byte 2562253127 0 = 3894439122 := by decide
  have s42 : crc32_byte 3894439122 0 = 1748341652 := by decide
  have s43 : crc32_byte 1748341652 0 = 4144653006 := by decide
  have s44 : crc32_byte 4144653006 0 = 2083251669 := by decide
  have s45 : crc32_byte 2083251669 0 = 4140109246 := by decide
  have s46 : crc32_byte 4140109246 0 = 741301126 := by decide
  have s47 : crc32_byte 741301126 0 = 83298638 := by decide
  have s48 : crc32_byte 83298638 0 = 2439027614 := by decide
  have s49 : crc32_byte 2439027614 0 = 388423384 := by decide
  have s50 : crc32_byte 388423384 0 = 2283764792 := by decide
  have s51 : crc32_byte 2283764792 0 = 680175586 := by decide
  have s52 : crc32_byte 680175586 0 = 1311508979 := by decide
  have s53 : crc32_byte 1311508979 0 = 620400559 := by decide
  have s54 : crc32_byte 620400559 0 = 1179469046 := by decide
  have s55 : crc32_byte 1179469046 0 = 1419254381 := by decide
  have s56 : crc32_byte 1419254381 0 = 861373951 := by decide
  have s57 : crc32_byte 861373951 0 = 758233096 := by decide
  have s58 : crc32_byte 758233096 0 = 251050378 := by decide
  have s59 : crc32_byte 251050378 0 = 224631943 := by decide
  have s60 : crc32_byte 224631943 0 = 1943106847 := by decide
  have s61 : crc32_byte 1943106847 0 = 2373704832 := by decide
  have s62 : crc32_byte 2373704832 0 = 3979737340 := by decide
  have s63 : crc32_byte 3979737340 0 = 3035007951 := by decide
  have s64 : crc32_byte 3035007951 0 = 191838634 := by decide
  have s65 : crc32_byte 191838634 0 = 906503631 := by decide
  have s66 : crc32_byte 906503631 0 = 200136452 := by decide
  have s67 : crc32_byte 200136452 0 = 124135886 := by decide
  have s68 : crc32_byte 124135886 0 = 2094762398 := by decide
  have s69 : crc32_byte 2094762398 0 = 399205834 := by decide
  have s70 : crc32_byte 399205834 0 = 2074534091 := by decide
  have s71 : crc32_byte 2074534091 0 = 214810072 := by decide
  have s72 : crc32_byte 214810072 4 = 2406044482 := by decide
  have s73 : crc32_byte 2406044482 0 = 2556250607 := by decide
  have s74 : crc32_byte 2556250607 0 = 808297120 := by decide
  have s75 : crc32_byte 808297120 0 = 3605433930 := by decide
  have s76 : crc32_byte 3605433930 128 = 2070400288 := by decide
  have s77 : crc32_byte 2070400288 0 = 991250181 := by decide
  have s78 : crc32_byte 991250181 0 = 1884414408 := by decide
  have s79 : crc32_byte 1884414408 0 = 2513378147 := by decide
  have s80 : crc32_byte 2513378147 0 = 3559849977 := by decide
  have s81 : crc32_byte 3559849977 0 = 3300222023 := by decide
  have s82 : crc32_byte 3300222023 0 = 3900465495 := by decide
  have s83 : crc32_byte 3900465495 0 = 4125603894 := by decide
  have s84 : crc32_byte 4125603894 128 = 586674433 := by decide
  have s85 : crc32_byte 586674433 0 = 1998964583 := by decide
  have s86 : crc32_byte 1998964583 0 = 3550597436 := by decide
  have s87 : crc32_byte 3550597436 0 = 800906582 := by decide
  have s88 : crc32_byte 800906582 0 = 2183612444 := by decide
  have s89 : crc32_byte 2183612444 0 = 344161031 := by decide
  have s90 : crc32_byte 344161031 0 = 2658146008 := by decide
  have s91 : crc32_byte 2658146008 0 = 2291542768 := by decide
  simp only [crc_span_bytes, List.foldl_cons, List.foldl_nil,
    s0, s1, s2, s3, s4, s5, s6, s7, s8, s9, s10, s11, s12, s13, s14, s15, s16, s17, s18, s19, s20, s21, s22, s23, s24, s25, s26, s27, s28, s29, s30, s31, s32, s33, s34, s35, s36, s37, s38, s39, s40, s41, s42, s43, s44, s45, s46, s47, s48, s49, s50, s51, s52, s53, s54, s55, s56, s57, s58, s59, s60, s61, s62, s63, s64, s65, s66, s67, s68, s69, s70, s71, s72, s73, s74, s75, s76, s77, s78, s79, s80, s81, s82, s83, s84, s85, s86, s87, s88, s89, s90, s91]

/-- The computed header CRC32 of `sector_gpt_valid`. -/
theorem crc32_sector_gpt_valid :
    gpt_header_crc_computed sector_gpt_valid = 2003424527 := by
  have hspan : (zero_crc_field sector_gpt_valid).take
      (decode_gpt_header_spec sector_gpt_valid).header_size =
        crc_span_bytes := by decide
  unfold gpt_header_crc_computed
  rw [hspan]
  unfold crc32
  rw [crc32_span_fold]
  decide

/-- The valid sector passes the spec-modelled validation. -/
theorem is_valid_sector_gpt_valid :
    is_valid_gpt_header sector_gpt_valid = true := by
  unfold is_valid_gpt_header
  rw [crc32_sector_gpt_valid]
  decide

/-- A device whose LBA 1 holds `sector_gpt_valid` and whose other sectors
are readable zeros (descriptor slots all null). -/
def disk_gpt_valid : Nat → Option (List Nat) :=
  fun lba => if lba = 1 then some sector_gpt_valid else some sector_zeros

/-- Evaluation of the accepted device: the analysis succeeds, all 4 declared
slots are enumerated (all null), and the printer receives count 4. -/
theorem analyze_disk_gpt_valid :
    analyze_gpt_device disk_gpt_valid = some (⟨[], 4, none⟩, 4) := by
  have hd : disk_gpt_valid 1 = some sector_gpt_valid := rfl
  unfold analyze_gpt_device
  rw [hd]
  simp only [is_valid_sector_gpt_valid, if_true]
  decide

/-- Witness for C5: the oversized-count sector is rejected before any
enumeration, and the accepted concrete device's output count 4 and its 4
completed iterations respect the configured maximum. -/
theorem gpt_num_entries_bounded_witness :
    (is_valid_gpt_header sector_too_many_entries = false ∧
     analyze_gpt_device
       (fun lba => if lba = 1 then some sector_too_many_entries else none)
       = none) ∧
    (4 ≤ GPT_MAX_PARTITION_ENTRIES ∧
     (⟨[], 4, none⟩ : EnumState).considered ≤ GPT_MAX_PARTITION_ENTRIES) :=
  ⟨⟨(gpt_num_entries_bounded.1 sector_too_many_entries (by decide)).1,
    (gpt_num_entries_bounded.1 sector_too_many_entries (by decide)).2 _
      (by decide)⟩,
   gpt_num_entries_bounded.2 disk_gpt_valid ⟨[], 4, none⟩ 4
     analyze_disk_gpt_valid⟩

/-! ## Sector reads (C10, main.c read_lba_sector) -/

/-- Function `read_lba_sector` (main.c:179-211), the C stream modelled by the file's
byte contents: `fopen` failing to open the device is the `none` file;
`fseek(fp, lba * SECTOR_SIZE, SEEK_SET)` positions at byte `lba * 512` (on an
open stream it succeeds for any in-range offset); `fread(buf, 1, 512, fp)`
yields the bytes from that position and the function returns 1 only when it
got exactly 512 of them, otherwise 0.  The `none` result is the 0 return, a
`some` result carries the 512 bytes stored into `buf`. -/
def read_lba_sector (file : Option (List Nat)) (lba : Nat) :
    Option (List Nat) :=
  match file with
  | none => none
  | some data =>
    let chunk := (data.drop (lba * 512)).take 512
    if chunk.length = 512 then some chunk else none

/-- C10: the sector read succeeds only when the device could be opened and a
full 512 bytes exist at offset `lba * 512`; the returned buffer then holds
exactly those 512 bytes.  (Failure to open, or a short read, gives `none`,
the 0 return — never a partial success.) -/
theorem read_lba_sector_exact (file : Option (List Nat)) (lba : Nat)
    (buf : List Nat) (h : read_lba_sector file lba = some buf) :
    buf.length = 512 ∧
    ∃ data, file = some data ∧ lba * 512 + 512 ≤ data.length ∧
      buf = (data.drop (lba * 512)).take 512 := by
  match file with
  | none => exact absurd h (by simp [read_lba_sector])
  | some data =>
    by_cases hl : ((data.drop (lba * 512)).take 512).length = 512
    · have hb : read_lba_sector (some data) lba =
          some ((data.drop (lba * 512)).take 512) := by
        simp [read_lba_sector, hl]
      rw [hb] at h
      obtain rfl : (data.drop (lba * 512)).take 512 = buf :=
        Option.some.inj h
      refine ⟨hl, data, rfl, ?_, rfl⟩
      have := hl
      rw [List.length_take, List.length_drop] at this
      omega
    · have hb : read_lba_sector (some data) lba = none := by
        rw [List.length_take, List.length_drop] at hl
        simp [read_lba_sector]
        omega
      rw [hb] at h
      exact absurd h (by simp)

/-- Witness for C10: reading LBA 1 of a 1024-byte file returns exactly its
second 512-byte half. -/
theorem read_lba_sector_exact_witness :
    (List.replicate 512 (7 : Nat)).length = 512 ∧
    ∃ data, some (List.replicate 1024 (7 : Nat)) = some data ∧
      1 * 512 + 512 ≤ data.length ∧
      List.replicate 512 (7 : Nat) = (data.drop (1 * 512)).take 512 :=
  read_lba_sector_exact (some (List.replicate 1024 7)) 1
    (List.replicate 512 7) (by decide)

/-! ## GUID string codec (C9)

`guid_to_str` is declared at gpt.h:184 but its translation unit is not among
the sources, and `from_string` exists only in the spec (§4.4), so both are
modelled from the spec's words: canonical hyphenated hex form
`XXXXXXXX-XXXX-XXXX-XXXX-XXXXXXXXXXXX`, first three fields in native
(already-decoded) order, `clock_seq_*` and `node` byte-for-byte. -/

/-- Lowercase hex digit character of a value below 16. -/
def hexChar (d : Nat) : Char :=
  if d < 10 then Char.ofNat (48 + d) else Char.ofNat (87 + d)

/-- The `k` hex digits of `n % 16^k`, most significant first. -/
def hexDigits : Nat → Nat → List Char
  | 0, _ => []
  | k + 1, n => hexDigits k (n / 16) ++ [hexChar (n % 16)]

/-- Hex digit recognizer (either case). -/
def isHexDigitCh (c : Char) : Bool :=
  ('0' ≤ c && c ≤ '9') || ('a' ≤ c && c ≤ 'f') || ('A' ≤ c && c ≤ 'F')

/-- Value of a hex digit character. -/
def hexVal (c : Char) : Nat :=
  if c ≤ '9' then c.toNat - 48
  else if c ≤ 'F' then c.toNat - 55
  else c.toNat - 87

/-- Value of a big-endian string of hex digits. -/
def parseHex (cs : List Char) : Nat :=
  cs.foldl (fun a c => a * 16 + hexVal c) 0

/-- Modelled from the spec: `guid_to_str` (declared at gpt.h:184, its
translation unit is not among the sources) — render the canonical hyphenated
form, 8-4-4-4-12 hex digits. -/
def guid_to_str (g : guid) : String :=
  ⟨hexDigits 8 g.time_lo ++
   ('-' :: (hexDigits 4 g.time_mid ++
   ('-' :: (hexDigits 4 g.time_hi_and_version ++
   ('-' :: (hexDigits 2 g.clock_seq_hi_and_reserved ++
   (hexDigits 2 g.clock_seq_lo ++
   ('-' :: (g.node.map (fun b => hexDigits 2 b)).flatten))))))))⟩

/-- Take `k` hex digits off the front of a character list and give their
value and the remainder; fail when fewer than `k` hex digits are present. -/
def parseHexSeg (k : Nat) (cs : List Char) : Option (Nat × List Char) :=
  let pre := cs.take k
  if pre.length = k ∧ pre.all isHexDigitCh = true then
    some (parseHex pre, cs.drop k)
  else none

/-- Consume one hyphen. -/
def parseDash : List Char → Option (List Char)
  | '-' :: rest => some rest
  | _ => none

/-- Modelled from the spec: `GuidCodec.from_string` (§4.4, no declaration in
the sources) — parse the canonical hyphenated 8-4-4-4-12 form back into a
`guid`; any other shape is a parse error. -/
def guid_from_string (s : String) : Option guid :=
  match parseHexSeg 8 s.data with
  | none => none
  | some (a, r1) =>
  match parseDash r1 with
  | none => none
  | some r2 =>
  match parseHexSeg 4 r2 with
  | none => none
  | some (b, r3) =>
  match parseDash r3 with
  | none => none
  | some r4 =>
  match parseHexSeg 4 r4 with
  | none => none
  | some (c, r5) =>
  match parseDash r5 with
  | none => none
  | some r6 =>
  match parseHexSeg 2 r6 with
  | none => none
  | some (d, r7) =>
  match parseHexSeg 2 r7 with
  | none => none
  | some (e, r8) =>
  match parseDash r8 with
  | none => none
  | some r9 =>
  match parseHexSeg 2 r9 with
  | none => none
  | some (n0, r10) =>
  match parseHexSeg 2 r10 with
  | none => none
  | some (n1, r11) =>
  match parseHexSeg 2 r11 with
  | none => none
  | some (n2, r12) =>
  match parseHexSeg 2 r12 with
  | none => none
  | some (n3, r13) =>
  match parseHexSeg 2 r13 with
  | none => none
  | some (n4, r14) =>
  match parseHexSeg 2 r14 with
  | none => none
  | some (n5, r15) =>
  if r15.isEmpty then some ⟨a, b, c, d, e, [n0, n1, n2, n3, n4, n5]⟩
  else none

theorem hexVal_hexChar : ∀ d, d < 16 → hexVal (hexChar d) = d := by decide

theorem isHexDigitCh_hexChar : ∀ d, d < 16 → isHexDigitCh (hexChar d) = true := by
  decide

@[simp] theorem hexDigits_length (k n : Nat) : (hexDigits k n).length = k := by
  induction k generalizing n with
  | zero => rfl
  | succ m ih => simp [hexDigits, ih]

@[simp] theorem hexDigits_all (k n : Nat) :
    (hexDigits k n).all isHexDigitCh = true := by
  induction k generalizing n with
  | zero => rfl
  | succ m ih =>
    simp [hexDigits, List.all_append, ih,
      isHexDigitCh_hexChar (n % 16) (Nat.mod_lt n (by norm_num))]

theorem parseHex_snoc (cs : List Char) (c : Char) :
    parseHex (cs ++ [c]) = parseHex cs * 16 + hexVal c := by
  simp [parseHex, List.foldl_append]

@[simp] theorem parseHex_hexDigits (k : Nat) :
    ∀ n, n < 16 ^ k → parseHex (hexDigits k n) = n := by
  induction k with
  | zero =>
    intro n hn
    interval_cases n
    rfl
  | succ m ih =>
    intro n hn
    have hdiv : n / 16 < 16 ^ m := by
      rw [Nat.div_lt_iff_lt_mul (by norm_num)]
      calc n < 16 ^ (m + 1) := hn
        _ = 16 ^ m * 16 := by rw [Nat.pow_succ]
    rw [hexDigits, parseHex_snoc, ih (n / 16) hdiv,
      hexVal_hexChar (n % 16) (Nat.mod_lt n (by norm_num))]
    omega

theorem parseHexSeg_append (k : Nat) (pre rest : List Char)
    (hlen : pre.length = k) (hall : pre.all isHexDigitCh = true) :
    parseHexSeg k (pre ++ rest) = some (parseHex pre, rest) := by
  subst hlen
  unfold parseHexSeg
  rw [List.take_left, List.drop_left]
  simp [hall]

theorem parseDash_cons (r : List Char) : parseDash ('-' :: r) = some r := rfl

set_option maxHeartbeats 1000000 in
/-- C9: the GUID string conversion round-trips; parsing the canonical
hyphenated string rendered for any representable 16-byte GUID value (fields
within their widths, 6 node bytes) gives back the same value. -/
theorem guid_round_trip (g : guid)
    (h1 : g.time_lo < 16 ^ 8) (h2 : g.time_mid < 16 ^ 4)
    (h3 : g.time_hi_and_version < 16 ^ 4)
    (h4 : g.clock_seq_hi_and_reserved < 16 ^ 2)
    (h5 : g.clock_seq_lo < 16 ^ 2)
    (h6 : g.node.length = 6) (h7 : ∀ b ∈ g.node, b < 16 ^ 2) :
    guid_from_string (guid_to_str g) = some g := by
  obtain ⟨a, b, c, d, e, node⟩ := g
  simp only at h1 h2 h3 h4 h5 h6 h7
  rcases node with _ | ⟨n0, node⟩
  · simp at h6
  rcases node with _ | ⟨n1, node⟩
  · simp at h6
  rcases node with _ | ⟨n2, node⟩
  · simp at h6
  rcases node with _ | ⟨n3, node⟩
  · simp at h6
  rcases node with _ | ⟨n4, node⟩
  · simp at h6
  rcases node with _ | ⟨n5, node⟩
  · simp at h6
  rcases node with _ | ⟨n6, node⟩
  swap
  · simp at h6
  have hn0 : n0 < 16 ^ 2 := h7 n0 (by simp)
  have hn1 : n1 < 16 ^ 2 := h7 n1 (by simp)
  have hn2 : n2 < 16 ^ 2 := h7 n2 (by simp)
  have hn3 : n3 < 16 ^ 2 := h7 n3 (by simp)
  have hn4 : n4 < 16 ^ 2 := h7 n4 (by simp)
  have hn5 : n5 < 16 ^ 2 := h7 n5 (by simp)
  rw [guid_from_string]
  dsimp only [guid_to_str]
  simp only [List.map_cons, List.map_nil, List.flatten_cons, List.flatten_nil]
  rw [parseHexSeg_append 8 _ _ (hexDigits_length 8 a) (hexDigits_all 8 a)]
  dsimp only [parseDash_cons]
  rw [parseHexSeg_append 4 _ _ (hexDigits_length 4 b) (hexDigits_all 4 b)]
  dsimp only [parseDash_cons]
  rw [parseHexSeg_append 4 _ _ (hexDigits_length 4 c) (hexDigits_all 4 c)]
  dsimp only [parseDash_cons]
  rw [parseHexSeg_append 2 _ _ (hexDigits_length 2 d) (hexDigits_all 2 d)]
  dsimp only []
  rw [parseHexSeg_append 2 _ _ (hexDigits_length 2 e) (hexDigits_all 2 e)]
  dsimp only [parseDash_cons]
  rw [parseHexSeg_append 2 _ _ (hexDigits_length 2 n0) (hexDigits_all 2 n0)]
  dsimp only []
  rw [parseHexSeg_append 2 _ _ (hexDigits_length 2 n1) (hexDigits_all 2 n1)]
  dsimp only []
  rw [parseHexSeg_append 2 _ _ (hexDigits_length 2 n2) (hexDigits_all 2 n2)]
  dsimp only []
  rw [parseHexSeg_append 2 _ _ (hexDigits_length 2 n3) (hexDigits_all 2 n3)]
  dsimp only []
  rw [parseHexSeg_append 2 _ _ (hexDigits_length 2 n4) (hexDigits_all 2 n4)]
  dsimp only []
  rw [parseHexSeg_append 2 _ _ (hexDigits_length 2 n5) (hexDigits_all 2 n5)]
  dsimp only [List.isEmpty_nil]
  rw [parseHex_hexDigits 8 a h1, parseHex_hexDigits 4 b h2,
    parseHex_hexDigits 4 c h3, parseHex_hexDigits 2 d h4,
    parseHex_hexDigits 2 e h5, parseHex_hexDigits 2 n0 hn0,
    parseHex_hexDigits 2 n1 hn1, parseHex_hexDigits 2 n2 hn2,
    parseHex_hexDigits 2 n3 hn3, parseHex_hexDigits 2 n4 hn4,
    parseHex_hexDigits 2 n5 hn5]
  rfl

/-- The all-0xFF GUID. -/
def guid_ff : guid :=
  ⟨0xFFFFFFFF, 0xFFFF, 0xFFFF, 0xFF, 0xFF, [255, 255, 255, 255, 255, 255]⟩

/-- Witness for C9 at the all-zero and all-0xFF GUID values. -/
theorem guid_round_trip_witness :
    guid_from_string (guid_to_str zero_guid) = some zero_guid ∧
    guid_from_string (guid_to_str guid_ff) = some guid_ff :=
  ⟨guid_round_trip zero_guid (by decide) (by decide) (by decide) (by decide)
      (by decide) (by decide) (by decide),
   guid_round_trip guid_ff (by decide) (by decide) (by decide) (by decide)
      (by decide) (by decide) (by decide)⟩

end DiskAnalysis
